import Mathlib

/-!
Shallow embedding of eventq.js (the node module variant; the browser variant
is line-for-line identical in every function modelled here).

The module defines an Event value object inside an IIFE and a SimpleEventQ
constructor inside a second IIFE whose local variables (listeners,
defListeners, object) are shared by every queue constructed from the module.
-/

namespace EventQ

/-- Event names are JS strings. -/
abbrev EvtName := String

/-- JS runtime errors the embedded code can surface: TypeErrors raised by the
runtime, and exceptions thrown by user listeners. -/
inductive JSError where
  | typeError (msg : String)
  | thrown (msg : String)
deriving DecidableEq, Repr

/-- Closure state of the IIFE that defines the event constructor E: the
variables declared by the line reading var prevent = false, halt = false.
They are initialized once, at module load, and are shared by every event
instance and every dispatch, because they live in the enclosing function
scope rather than on the event instances; nothing ever resets them. -/
structure EventClosure where
  prevent : Bool
  halt : Bool
deriving DecidableEq, Repr

/-- Values of the two closure flags when the module loads. -/
def EventClosure.load : EventClosure := ⟨false, false⟩

/-- Prototype method preventDefault: sets the closure variable prevent. -/
def preventDefaultM (c : EventClosure) : EventClosure := { c with prevent := true }

/-- Prototype method isPrevented: reads the closure variable prevent. -/
def isPreventedM (c : EventClosure) : Bool := c.prevent

/-- Prototype method halt: sets the closure variable halt. -/
def haltM (c : EventClosure) : EventClosure := { c with halt := true }

/-- Prototype method isHalted: reads the closure variable halt. -/
def isHaltedM (c : EventClosure) : Bool := c.halt

/-- Fields stored on an event instance by the prototype constructor:
name, target and data (target is the module variable object, which is null
before any construction, hence an Option). -/
structure EObj (Tgt Data : Type) where
  name : EvtName
  target : Option Tgt
  data : Data
deriving DecidableEq, Repr

/-- Value of the module-level variable named Event. The IIFE that defines the
function E and its prototype contains no return statement, so the call
expression evaluates to the JS value undefined: Event holds undefined
(modelled none), not the function E (which would be some unit). -/
def EventVar : Option Unit := none

/-- Behaviour of a test listener body when invoked with the event: return
normally, call preventDefault on the event, call halt on the event, or throw.
The id field identifies the function object so invocations can be traced. -/
inductive LBody where
  | pass
  | callPreventDefault
  | callHalt
  | throwErr (msg : String)
deriving DecidableEq, Repr

/-- A user listener function: an identity plus a body. -/
structure Listener where
  id : Nat
  body : LBody
deriving DecidableEq, Repr

/-- Invoking a raw listener function: its effect on the shared closure flags
and whether it returns normally or throws. -/
def invokeRaw (l : Listener) (c : EventClosure) : EventClosure × Except JSError Unit :=
  match l.body with
  | .pass => (c, .ok ())
  | .callPreventDefault => (preventDefaultM c, .ok ())
  | .callHalt => (haltM c, .ok ())
  | .throwErr m => (c, .error (.thrown m))

/-- The closure pushed onto a chain by addListener: it captures the raw
listener and the value of the local next, which is the previously last
wrapper of the chain or the JS value false (modelled none) when the chain
was empty. -/
inductive Wrapper where
  | mk (listener : Listener) (next : Option Wrapper)

/-- Result of running a piece of dispatch code: the closure flags afterwards,
the ids of the raw listeners invoked in order, and normal return or a thrown
error. -/
structure FireResult where
  closure : EventClosure
  invoked : List Nat
  outcome : Except JSError Unit
deriving Repr

/-- Body of a wrapper pushed by addListener: listener.apply(object, [e]);
then, if the event is not halted and next is not false, next.apply(object, [e]). -/
def runWrapper : Wrapper → EventClosure → FireResult
  | .mk l next, c =>
    match invokeRaw l c with
    | (c1, .error err) => ⟨c1, [l.id], .error err⟩
    | (c1, .ok ()) =>
      if isHaltedM c1 then ⟨c1, [l.id], .ok ()⟩
      else
        match next with
        | none => ⟨c1, [l.id], .ok ()⟩
        | some w =>
          let r := runWrapper w c1
          ⟨r.closure, l.id :: r.invoked, r.outcome⟩

/-- Property lookup on the model of a plain JS object with string keys. -/
def assocFind {α : Type} : List (EvtName × α) → EvtName → Option α
  | [], _ => none
  | (k, v) :: rest, q => if k = q then some v else assocFind rest q

/-- hasOwnProperty on the model of a plain JS object. -/
def assocHas {α : Type} (m : List (EvtName × α)) (k : EvtName) : Bool :=
  (assocFind m k).isSome

/-- Property assignment on the model of a plain JS object. -/
def assocSet {α : Type} : List (EvtName × α) → EvtName → α → List (EvtName × α)
  | [], k, v => [(k, v)]
  | (q, w) :: rest, k, v =>
    if q = k then (k, v) :: rest else (q, w) :: assocSet rest k v

/-- The delete operator on the model of a plain JS object. -/
def assocDelete {α : Type} : List (EvtName × α) → EvtName → List (EvtName × α)
  | [], _ => []
  | (q, w) :: rest, k => if q = k then rest else (q, w) :: assocDelete rest k

/-- A JS numeric value: a number or NaN. -/
inductive JSNumber where
  | nan
  | num (n : Int)
deriving DecidableEq, Repr

/-- JS evaluation of x - 1 where x may be undefined (none): undefined coerces
to NaN under arithmetic, and NaN propagates. -/
def jsSubOne : Option JSNumber → JSNumber
  | none => .nan
  | some .nan => .nan
  | some (.num n) => .num (n - 1)

/-- Reading the length property of the dynamic-listener mapping, as the
dispatch line listeners[event][listeners.length - 1] does: the mapping is a
plain object, not an array, so it has no length property and the property
read yields undefined. -/
def mappingLength : Option JSNumber := none

/-- Indexing a JS array by a JS number: a NaN, negative or out-of-range index
names an absent property, so the read yields undefined (none). -/
def jsIndex {α : Type} (arr : List α) : JSNumber → Option α
  | .nan => none
  | .num i => if i < 0 then none else arr.get? i.toNat

/-- A JS value sitting in callable position inside the closure stored by
addDefault: the intended case is a listener function, but the constructor
loop passes the whole defaults configuration object. Applying a plain object
throws a TypeError. -/
inductive Callee where
  | fn (l : Listener)
  | obj (defaults : List (EvtName × Listener))
deriving DecidableEq, Repr

/-- Closure state of the module IIFE that builds SimpleEventQ: the variables
listeners, defListeners and object. They are module level, so every queue
constructed from this module shares them. -/
structure QState (Tgt : Type) where
  listeners : List (EvtName × List Wrapper)
  defListeners : List (EvtName × Callee)
  object : Option Tgt

/-- The module state right after loading: listeners and defListeners are
empty objects and object is null. -/
def QState.load {Tgt : Type} : QState Tgt := ⟨[], [], none⟩

/-- fireEvent: evaluates new Event(event, object, data) and dispatches.
Because the Event variable holds undefined, the construction throws a
TypeError before anything else can happen; the translation of the remainder
of the body is kept under the (unreachable) branch in which Event holds a
function. There, the chain step indexes the chain with
listeners.length - 1, where listeners is the plain mapping object, and the
default step consults the flags and then applies the stored callee. -/
def fireEvent {Tgt Data : Type} (event : EvtName) (data : Data)
    (st : QState Tgt) (c : EventClosure) : FireResult :=
  match EventVar with
  | none => ⟨c, [], .error (.typeError "Event is not a constructor")⟩
  | some _ =>
    let _e : EObj Tgt Data := ⟨event, st.object, data⟩
    let chainRes : FireResult :=
      match assocFind st.listeners event with
      | none => ⟨c, [], .ok ()⟩
      | some chain =>
        if chain.length > 0 then
          match jsIndex chain (jsSubOne mappingLength) with
          | some w => runWrapper w c
          | none => ⟨c, [], .error (.typeError "chain entry at index NaN is not a function")⟩
        else ⟨c, [], .ok ()⟩
    match chainRes.outcome with
    | .error _ => chainRes
    | .ok () =>
      if !(isPreventedM chainRes.closure) && !(isHaltedM chainRes.closure) then
        match assocFind st.defListeners event with
        | none => chainRes
        | some callee =>
          match callee with
          | .obj _ => ⟨chainRes.closure, chainRes.invoked,
              .error (.typeError "listener.apply is not a function")⟩
          | .fn l =>
            let (c2, r) := invokeRaw l chainRes.closure
            ⟨c2, chainRes.invoked ++ [l.id], r⟩
      else chainRes

/-- Falsiness of the eventName argument of removeListeners: the argument is
either omitted (undefined, falsy) or a string, and the empty string is the
only falsy string. -/
def strFalsy : Option EvtName → Bool
  | none => true
  | some s => s = ""

/-- removeListeners: a falsy argument resets the whole mapping to a fresh
empty object; otherwise the chain stored under the name, if any, is deleted. -/
def removeListeners {Tgt : Type} (event : Option EvtName) (st : QState Tgt) :
    QState Tgt :=
  if strFalsy event then { st with listeners := [] }
  else
    match event with
    | some s =>
      if assocHas st.listeners s then
        { st with listeners := assocDelete st.listeners s }
      else st
    | none => st

/-- addListener: declares locals q and next; assigns q (a fresh empty array,
also stored into the mapping) only when no chain exists for the event;
evaluates the ternary on q.length, which throws a TypeError when q is still
undefined; then pushes onto q a wrapper capturing the listener and next. -/
def addListener {Tgt : Type} (event : EvtName) (l : Listener) (st : QState Tgt) :
    Except JSError (QState Tgt) :=
  let q : Option (List Wrapper) :=
    if assocHas st.listeners event then none
    else some []
  match q with
  | none => .error (.typeError "Cannot read property length of undefined")
  | some arr =>
    let next : Option Wrapper := if arr.length ≠ 0 then arr.getLast? else none
    .ok { st with listeners := assocSet st.listeners event (arr ++ [Wrapper.mk l next]) }

/-- addDefault: stores under the event key a closure that applies the
captured callee to the event with object as receiver. -/
def addDefault {Tgt : Type} (event : EvtName) (listener : Callee) (st : QState Tgt) :
    QState Tgt :=
  { st with defListeners := assocSet st.defListeners event listener }

/-- The prototype constructor: object = listenTo or, when that is absent,
the new instance itself; then, for each own property prop of defaults, the
loop calls addDefault(prop, defaults), passing the whole defaults object
rather than the property value defaults[prop] as the listener argument. The
module variables are not reset, so a later construction from the same module
reassigns object and keeps the accumulated listeners and defListeners. -/
def ctor {Tgt : Type} (defaults : List (EvtName × Listener)) (listenTo : Option Tgt)
    (self : Tgt) (st : QState Tgt) : QState Tgt :=
  let obj : Tgt := match listenTo with | some t => t | none => self
  let st1 : QState Tgt := { st with object := some obj }
  defaults.foldl (fun s p => addDefault p.1 (Callee.obj defaults) s) st1

/-- getParent: returns the module variable object. -/
def getParent {Tgt : Type} (st : QState Tgt) : Option Tgt := st.object

/-- The on method attached to the bound target: calls
addListener(event, listener, listeners) (the third argument is ignored, since
addListener declares two parameters) and then returns this. A thrown error
propagates to the caller instead, leaving the state as addListener left it. -/
def onMeth {Tgt : Type} (event : EvtName) (l : Listener) (st : QState Tgt)
    (this : Tgt) : QState Tgt × Except JSError Tgt :=
  match addListener event l st with
  | .ok st1 => (st1, .ok this)
  | .error err => (st, .error err)

/-- The off method attached to the bound target: calls removeListeners and
returns this; removeListeners cannot throw. -/
def offMeth {Tgt : Type} (event : Option EvtName) (st : QState Tgt)
    (this : Tgt) : QState Tgt × Except JSError Tgt :=
  (removeListeners event st, .ok this)

/-- The trigger method attached to the bound target: calls fireEvent and then
returns this; when fireEvent throws, the error propagates to the caller and
this is not returned. -/
def triggerMeth {Tgt Data : Type} (event : EvtName) (data : Data) (st : QState Tgt)
    (c : EventClosure) (this : Tgt) : QState Tgt × FireResult × Except JSError Tgt :=
  let fr := fireEvent event data st c
  (st, fr, match fr.outcome with | .ok _ => .ok this | .error err => .error err)

/-!
Theorems. Dispatch claims are checked against the literal behaviour of the
module: since the Event variable holds undefined, every fireEvent call throws
a TypeError at the construction of the event, before any listener can run.
-/

/-- Auxiliary: the defaults loop of the constructor only touches
defListeners, never the object back-reference. -/
theorem foldlAddDefaultObject (dfl : List (EvtName × Listener)) :
    ∀ (ds : List (EvtName × Listener)) (acc : QState Nat),
      (ds.foldl (fun s p => addDefault p.1 (Callee.obj dfl) s) acc).object = acc.object := by
  intro ds
  induction ds with
  | nil => intro acc; rfl
  | cons hd tl ih =>
    intro acc
    rw [List.foldl_cons, ih (addDefault hd.1 (Callee.obj dfl) acc)]
    rfl

/-- Auxiliary: removeListeners only touches the listeners mapping, never the
object back-reference. -/
theorem removeListenersObject (ev : Option EvtName) (st : QState Nat) :
    (removeListeners ev st).object = st.object := by
  unfold removeListeners
  split
  · rfl
  · cases ev with
    | none => rfl
    | some s =>
      dsimp only
      split <;> rfl

/-- Auxiliary: the on method never changes the object back-reference, whether
addListener returns normally or throws. -/
theorem onMethObject (ev : EvtName) (l : Listener) (st : QState Nat) (this : Nat) :
    ((onMeth ev l st this).1).object = st.object := by
  unfold onMeth addListener
  by_cases h : assocHas st.listeners ev = true
  · simp [h]
  · simp [h]

/-- C1: the claim fails on the code. After a listener is successfully
registered for event a, triggering a throws a TypeError at new Event (the
Event variable holds undefined) and invokes no listener at all, so the
registered listener never receives any event object. -/
theorem trigger_throws_before_any_listener_c1 :
    ((onMeth "a" ⟨4, .pass⟩ (ctor [] (some 7) 7 (QState.load : QState Nat)) 7).1.listeners
      = [("a", [Wrapper.mk ⟨4, .pass⟩ none])]) ∧
    (fireEvent "a" (5 : Nat)
        ((onMeth "a" ⟨4, .pass⟩ (ctor [] (some 7) 7 QState.load) 7).1)
        EventClosure.load
      = ⟨EventClosure.load, [], .error (.typeError "Event is not a constructor")⟩) :=
  ⟨rfl, rfl⟩

/-- C2: the claim fails on the code. Constructing with a defaults mapping
whose key greet is bound to handler f stores, under greet, a closure over the
whole defaults object (the loop passes defaults itself, not the property
value f), and triggering greet throws at new Event with no listener invoked,
so f never receives any event. -/
theorem default_misconfigured_and_never_fires_c2 :
    (assocFind (ctor [("greet", ⟨1, .pass⟩)] (some 7) 7 (QState.load : QState Nat)).defListeners "greet"
      = some (Callee.obj [("greet", ⟨1, .pass⟩)])) ∧
    ((fireEvent "greet" (3 : Nat) (ctor [("greet", ⟨1, .pass⟩)] (some 7) 7 QState.load)
        EventClosure.load).invoked = []) ∧
    ((fireEvent "greet" (3 : Nat) (ctor [("greet", ⟨1, .pass⟩)] (some 7) 7 QState.load)
        EventClosure.load).outcome = .error (.typeError "Event is not a constructor")) :=
  ⟨rfl, rfl, rfl⟩

/-- C3: the claim fails on the code. Registering A for event a succeeds, but
a second on call for the same name throws a TypeError, because the local q is
assigned only when no chain exists yet; B is never registered and the chain
still holds exactly the single wrapper for A. -/
theorem second_on_same_event_throws_c3 :
    ((onMeth "a" ⟨1, .pass⟩ (ctor [] (some 7) 7 (QState.load : QState Nat)) 7).2 = .ok 7) ∧
    ((onMeth "a" ⟨2, .pass⟩
        ((onMeth "a" ⟨1, .pass⟩ (ctor [] (some 7) 7 (QState.load : QState Nat)) 7).1) 7).2
      = .error (.typeError "Cannot read property length of undefined")) ∧
    ((onMeth "a" ⟨2, .pass⟩
        ((onMeth "a" ⟨1, .pass⟩ (ctor [] (some 7) 7 (QState.load : QState Nat)) 7).1) 7).1.listeners
      = [("a", [Wrapper.mk ⟨1, .pass⟩ none])]) :=
  ⟨rfl, rfl, rfl⟩

/-- C4: the claim fails on the code. No trigger call ever constructs an
event, because the module variable Event holds undefined, so every fireEvent
throws the same TypeError at new Event; and the prevented and halted flags
live in the module closure of the Event IIFE, which fireEvent never resets:
a trigger call entered with both flags already true leaves them true instead
of starting from a fresh event with both flags false. -/
theorem no_fresh_event_per_trigger_c4 :
    EventVar = none ∧
    ((fireEvent "a" (0 : Nat) (ctor [] (some 7) 7 (QState.load : QState Nat))
        ⟨true, true⟩).closure = ⟨true, true⟩) ∧
    ((fireEvent "a" (0 : Nat) (ctor [] (some 7) 7 (QState.load : QState Nat))
        ⟨true, true⟩).outcome = .error (.typeError "Event is not a constructor")) ∧
    ((fireEvent "a" (0 : Nat) (ctor [] (some 7) 7 (QState.load : QState Nat))
        EventClosure.load).outcome = .error (.typeError "Event is not a constructor")) :=
  ⟨rfl, rfl, rfl, rfl⟩

/-- C5: the claim fails on the code. off(a) does clear the chain for a and
does leave the default mapping exactly as construction left it, but the
subsequent trigger of a throws a TypeError at new Event and invokes nothing,
so the default listener for a does not run. -/
theorem off_keeps_defaults_but_trigger_throws_c5 :
    ((offMeth (some "a")
        ((onMeth "a" ⟨2, .pass⟩ (ctor [("a", ⟨1, .pass⟩)] (some 7) 7
          (QState.load : QState Nat)) 7).1) 7).1.listeners = []) ∧
    ((offMeth (some "a")
        ((onMeth "a" ⟨2, .pass⟩ (ctor [("a", ⟨1, .pass⟩)] (some 7) 7
          (QState.load : QState Nat)) 7).1) 7).1.defListeners
      = (ctor [("a", ⟨1, .pass⟩)] (some 7) 7 (QState.load : QState Nat)).defListeners) ∧
    (fireEvent "a" (0 : Nat)
        ((offMeth (some "a")
          ((onMeth "a" ⟨2, .pass⟩ (ctor [("a", ⟨1, .pass⟩)] (some 7) 7
            (QState.load : QState Nat)) 7).1) 7).1)
        EventClosure.load
      = ⟨EventClosure.load, [], .error (.typeError "Event is not a constructor")⟩) :=
  ⟨rfl, rfl, rfl⟩

/-- C6: the claim is unrealizable on the code. With a listener registered for
event a whose body throws boom, triggering a surfaces the dispatcher's own
TypeError from new Event, not the listener's exception, and the listener is
never invoked: no listener can throw during trigger because trigger crashes
before reaching any listener. -/
theorem listener_exception_never_reached_c6 :
    ((fireEvent "a" (0 : Nat)
        ((onMeth "a" ⟨3, .throwErr "boom"⟩ (ctor [] (some 7) 7
          (QState.load : QState Nat)) 7).1) EventClosure.load).outcome
      = .error (.typeError "Event is not a constructor")) ∧
    ((fireEvent "a" (0 : Nat)
        ((onMeth "a" ⟨3, .throwErr "boom"⟩ (ctor [] (some 7) 7
          (QState.load : QState Nat)) 7).1) EventClosure.load).invoked = []) ∧
    ((fireEvent "a" (0 : Nat)
        ((onMeth "a" ⟨3, .throwErr "boom"⟩ (ctor [] (some 7) 7
          (QState.load : QState Nat)) 7).1) EventClosure.load).outcome
      ≠ .error (.thrown "boom")) :=
  ⟨rfl, rfl, fun h => JSError.noConfusion (Except.error.inj h)⟩

/-- C7: the claim fails on the code. Triggering a name with no chain and no
default leaves the module state untouched and invokes no listener, but the
trigger method throws the TypeError at new Event instead of returning the
bound target. -/
theorem unknown_event_trigger_throws_c7 :
    ((triggerMeth "nope" (0 : Nat) (ctor [] (some 7) 7 (QState.load : QState Nat))
        EventClosure.load 7).2.2 = .error (.typeError "Event is not a constructor")) ∧
    ((triggerMeth "nope" (0 : Nat) (ctor [] (some 7) 7 (QState.load : QState Nat))
        EventClosure.load 7).1 = ctor [] (some 7) 7 QState.load) ∧
    ((triggerMeth "nope" (0 : Nat) (ctor [] (some 7) 7 (QState.load : QState Nat))
        EventClosure.load 7).2.1.invoked = []) :=
  ⟨rfl, rfl, rfl⟩

/-- C8 counterexample: construct a queue bound to target 1 and then a second
queue from the same module bound to target 2. The single module variable
object, which getParent returns and every dispatch uses as receiver, now
holds 2, so getParent no longer denotes the first construction's target. -/
theorem parent_reassigned_by_second_ctor_c8 :
    (getParent (ctor [] (some 2) 99 (ctor [] (some 1) 99 (QState.load : QState Nat)))
      ≠ getParent (ctor [] (some 1) 99 (QState.load : QState Nat))) ∧
    getParent (ctor [] (some 1) 99 (QState.load : QState Nat)) = some 1 := by
  exact ⟨by decide, rfl⟩

/-- C8 amended: the module holds one back-reference shared by every queue it
constructs; a construction assigns it to the listenTo argument, the on, off
and trigger methods never change it, and only a later construction from the
same module reassigns it. -/
theorem parent_fixed_between_ctors_c8 (defaults : List (EvtName × Listener))
    (t self this : Nat) (st : QState Nat) (ev : EvtName) (l : Listener)
    (evOff : Option EvtName) (d : Nat) (c : EventClosure) :
    getParent (ctor defaults (some t) self st) = some t ∧
    ((onMeth ev l st this).1).object = st.object ∧
    ((offMeth evOff st this).1).object = st.object ∧
    ((triggerMeth ev d st c this).1).object = st.object := by
  refine ⟨?_, onMethObject ev l st this, removeListenersObject evOff st, rfl⟩
  show (ctor defaults (some t) self st).object = some t
  unfold ctor
  exact foldlAddDefaultObject defaults defaults _

/-- C9: the claim fails on the code. The off method does return the bound
target, but the trigger method throws the TypeError at new Event instead of
returning it, so not all three methods return the bound target. -/
theorem not_all_methods_return_target_c9 :
    ((offMeth none (ctor [] (some 7) 7 (QState.load : QState Nat)) 7).2 = .ok 7) ∧
    ((triggerMeth "a" (0 : Nat) (ctor [] (some 7) 7 (QState.load : QState Nat))
        EventClosure.load 7).2.2 = .error (.typeError "Event is not a constructor")) ∧
    ((triggerMeth "a" (0 : Nat) (ctor [] (some 7) 7 (QState.load : QState Nat))
        EventClosure.load 7).2.2 ≠ .ok 7) :=
  ⟨rfl, rfl, fun h => nomatch h⟩

/-- C10: removeListeners branches on the falsiness of its argument, not on
its presence: both an omitted argument and the empty string reset the whole
dynamic-listener mapping, clearing every event name's chain at once, while
any non-falsy name deletes only the chain stored under that name and leaves
the rest of the state alone. -/
theorem off_falsy_clears_every_chain_c10 (st : QState Nat) :
    removeListeners none st = { st with listeners := [] } ∧
    removeListeners (some "") st = { st with listeners := [] } ∧
    ∀ s : EvtName, s ≠ "" →
      removeListeners (some s) st =
        (if assocHas st.listeners s then
          { st with listeners := assocDelete st.listeners s } else st) := by
  refine ⟨rfl, rfl, ?_⟩
  intro s hs
  simp [removeListeners, strFalsy, hs]

/-- Witness for C10 at a concrete module state holding chains for the two
names a and b. -/
theorem off_falsy_clears_every_chain_c10_w :
    removeListeners (some "a")
        (⟨[("a", []), ("b", [])], [], some 7⟩ : QState Nat) =
      (if assocHas ([("a", []), ("b", [])] : List (EvtName × List Wrapper)) "a" then
        { (⟨[("a", []), ("b", [])], [], some 7⟩ : QState Nat) with
            listeners := assocDelete [("a", []), ("b", [])] "a" }
       else (⟨[("a", []), ("b", [])], [], some 7⟩ : QState Nat)) :=
  (off_falsy_clears_every_chain_c10
    (⟨[("a", []), ("b", [])], [], some 7⟩ : QState Nat)).2.2 "a" (by decide)

end EventQ
